import Mathlib

/-!
Shallow embedding of the botmonik availability-monitoring engine.

The embedding covers the probe layer (monitor.py), the endpoint store
(database.py) and the monitoring loop with its confirmation sequences
(bot.py, monitoring_loop / confirm_server_down / confirm_server_recovery /
send_down_notification / send_recovery_notification), together with the
configuration values of config.py.

Network and subprocess effects are modelled by outcome types: each probe
primitive takes the outcome its awaited operation produced (process exit,
timeout, refused connection, raised exception, ...) and maps it to the
CheckResult the Python function returns on that path.  Response times are
modelled as measured milliseconds (Nat); timestamps are not modelled.
-/

namespace Botmonik

/-- Result of one probe, mirroring the CheckResult dataclass of monitor.py. -/
structure CheckResult where
  is_available : Bool
  method : String
  response_time : Option Nat
  error : Option String
deriving Repr, DecidableEq

/-- Outcome of the ping subprocess awaited by check_ping (monitor.py lines
29-47): the process exits with a return code after a measured elapsed time,
the wait times out, or some other exception is raised. -/
inductive PingOutcome where
  | exited (returncode : Int) (elapsedMs : Nat)
  | timedOut
  | exc (msg : String)
deriving Repr, DecidableEq

/-- The check_ping function of monitor.py: exit code 0 is available with the
measured time; a nonzero exit code reports "Ping failed"; a timeout reports
"Timeout"; any other exception reports its message. -/
def check_ping : PingOutcome → CheckResult
  | .exited rc t =>
    if rc = 0 then ⟨true, "ping", some t, none⟩
    else ⟨false, "ping", none, some "Ping failed"⟩
  | .timedOut => ⟨false, "ping", none, some "Timeout"⟩
  | .exc m => ⟨false, "ping", none, some m⟩

/-- Outcome of the TCP connection attempt awaited by check_tcp_port
(monitor.py lines 54-72). -/
inductive TcpOutcome where
  | connected (elapsedMs : Nat)
  | timedOut
  | refused
  | osError (msg : String)
  | exc (msg : String)
deriving Repr, DecidableEq

/-- The check_tcp_port function of monitor.py. -/
def check_tcp_port : TcpOutcome → CheckResult
  | .connected t => ⟨true, "tcp", some t, none⟩
  | .timedOut => ⟨false, "tcp", none, some "Connection timeout"⟩
  | .refused => ⟨false, "tcp", none, some "Connection refused"⟩
  | .osError m => ⟨false, "tcp", none, some ("OS Error: " ++ m)⟩
  | .exc m => ⟨false, "tcp", none, some m⟩

/-- Outcome of the UDP send/receive in check_udp_port (monitor.py lines
79-100): a reply datagram arrives, the wait for a reply times out (the
elapsed time is still measured on this branch), or an exception is raised. -/
inductive UdpOutcome where
  | reply (elapsedMs : Nat)
  | timedOut (elapsedMs : Nat)
  | exc (msg : String)
deriving Repr, DecidableEq

/-- The check_udp_port function of monitor.py: both a reply and a timeout
while waiting for a reply are reported available with a measured time. -/
def check_udp_port : UdpOutcome → CheckResult
  | .reply t => ⟨true, "udp", some t, none⟩
  | .timedOut t => ⟨true, "udp", some t, none⟩
  | .exc m => ⟨false, "udp", none, some m⟩

/-- The outcomes of the up-to-two network operations one check_server call
can perform: the ping, and the TCP or UDP port probe that would run if the
ping succeeds. -/
structure ProbeOutcome where
  ping : PingOutcome
  tcp : TcpOutcome
  udp : UdpOutcome
deriving Repr, DecidableEq

/-- Model of the Python str.lower() call applied to the protocol string:
lower-case every character. -/
def pyLower (s : String) : String :=
  ⟨s.data.map Char.toLower⟩

/-- The check_server function of monitor.py (lines 103-115): ping first; if
the ping result is unavailable return it unchanged; otherwise run the TCP
check when protocol.lower() == "tcp" and the UDP check otherwise. -/
def check_server (protocol : String) (o : ProbeOutcome) : CheckResult :=
  let ping_result := check_ping o.ping
  if ping_result.is_available then
    if pyLower protocol = "tcp" then check_tcp_port o.tcp
    else check_udp_port o.udp
  else ping_result

/-- C6: check_server is a total function into CheckResult — every outcome of
the underlying operations, including timeouts, refused connections and raised
exceptions, is mapped to a result in which availability and the error field
encode the outcome: available results carry no error, failed results carry an
error message. -/
theorem check_server_never_throws (protocol : String) (o : ProbeOutcome) :
    ((check_server protocol o).is_available = true ∧
      (check_server protocol o).error = none) ∨
    ((check_server protocol o).is_available = false ∧
      ((check_server protocol o).error).isSome = true) := by
  rcases o with ⟨p, t, u⟩
  cases p <;> cases t <;> cases u <;>
    simp only [check_server, check_ping, check_tcp_port, check_udp_port] <;>
    (repeat' split) <;> simp_all

/-- C8: when the reachability (ping) check fails, check_server returns the
ping result itself — carrying the reachability error — and the TCP/UDP
outcomes are never consulted: the result is the same for any port outcome. -/
theorem check_server_skips_port_on_ping_failure (protocol : String)
    (p : PingOutcome) (t t2 : TcpOutcome) (u u2 : UdpOutcome)
    (h : (check_ping p).is_available = false) :
    check_server protocol ⟨p, t, u⟩ = check_ping p ∧
    (check_server protocol ⟨p, t, u⟩).error = (check_ping p).error ∧
    check_server protocol ⟨p, t, u⟩ = check_server protocol ⟨p, t2, u2⟩ := by
  simp [check_server, h]

/-- Witness for C8 at a concrete input: a timed-out ping with differing port
outcomes on each side. -/
theorem check_server_skips_port_on_ping_failure_witness :
    check_server "tcp" ⟨.timedOut, .connected 5, .reply 5⟩ = check_ping .timedOut ∧
    (check_server "tcp" ⟨.timedOut, .connected 5, .reply 5⟩).error =
      (check_ping .timedOut).error ∧
    check_server "tcp" ⟨.timedOut, .connected 5, .reply 5⟩ =
      check_server "tcp" ⟨.timedOut, .refused, .exc "boom"⟩ :=
  check_server_skips_port_on_ping_failure "tcp" .timedOut (.connected 5) .refused
    (.reply 5) (.exc "boom") (by decide)

/-- C5: a UDP probe whose reachability check succeeded and whose wait for a
reply datagram timed out is classified available, with the measured response
time and no error. -/
theorem udp_timeout_reports_available (protocol : String) (p : PingOutcome)
    (t : TcpOutcome) (ms : Nat)
    (hping : (check_ping p).is_available = true)
    (hproto : ¬ pyLower protocol = "tcp") :
    check_server protocol ⟨p, t, .timedOut ms⟩ = ⟨true, "udp", some ms, none⟩ := by
  simp [check_server, hping, hproto, check_udp_port]

/-- Witness for C5 at a concrete input: protocol "udp", successful ping,
timed-out wait for a reply. -/
theorem udp_timeout_reports_available_witness :
    check_server "udp" ⟨.exited 0 3, .refused, .timedOut 7⟩ =
      ⟨true, "udp", some 7, none⟩ :=
  udp_timeout_reports_available "udp" (.exited 0 3) .refused 7
    (by decide) (by decide)

/-- A row of the servers table / the Server dataclass of database.py.
Timestamps (created_at, last_check) are not modelled; counters are Int
because Python integers are unbounded and signed. -/
structure ServerRec where
  id : Nat
  name : String
  host : String
  port : Nat
  protocol : String
  is_active : Bool
  last_status : Bool
  consecutive_failures : Int
  notification_sent : Bool
  total_checks : Int
  total_failures : Int
deriving Repr, DecidableEq

/-- A row of the check_history table of database.py (timestamp omitted). -/
structure HistoryRow where
  server_id : Nat
  is_available : Bool
  response_time : Option Nat
  error : Option String
deriving Repr, DecidableEq

/-- The database state relevant to the monitoring core: the servers table and
the append-ordered check_history table.  The id column is the SQL primary
key, so well-formed states carry at most one row per id; lookups mirror the
SQL `WHERE id = ?` via find?. -/
structure DBState where
  servers : List ServerRec
  history : List HistoryRow
deriving Repr, DecidableEq

/-- Database.get_server: SELECT * FROM servers WHERE id = ?. -/
def get_server (dbs : DBState) (sid : Nat) : Option ServerRec :=
  dbs.servers.find? (fun s => s.id == sid)

/-- Database.get_active_servers: SELECT * FROM servers WHERE is_active = 1. -/
def get_active_servers (dbs : DBState) : List ServerRec :=
  dbs.servers.filter (fun s => s.is_active)

/-- The per-row effect of Database.update_server_status (lines 148-165):
last_status is overwritten, consecutive_failures resets to 0 on success and
increments on failure, total_failures increments on failure, and total_checks
always increments. -/
def apply_check (is_available : Bool) (s : ServerRec) : ServerRec :=
  { s with
    last_status := is_available,
    consecutive_failures := if is_available then 0 else s.consecutive_failures + 1,
    total_checks := s.total_checks + 1,
    total_failures := if is_available then s.total_failures else s.total_failures + 1 }

/-- Database.update_server_status (lines 128-173): read the current counters
for the id; if no row exists return with the database untouched; otherwise
update that server row and append one check_history row. -/
def update_server_status (dbs : DBState) (server_id : Nat) (is_available : Bool)
    (response_time : Option Nat) (error : Option String) : DBState :=
  match dbs.servers.find? (fun s => s.id == server_id) with
  | none => dbs
  | some _ =>
    { servers := dbs.servers.map (fun s =>
        if s.id == server_id then apply_check is_available s else s),
      history := dbs.history ++ [⟨server_id, is_available, response_time, error⟩] }

/-- Database.set_notification_sent (lines 175-182). -/
def set_notification_sent (dbs : DBState) (server_id : Nat) (sent : Bool) : DBState :=
  { dbs with servers := dbs.servers.map (fun s =>
      if s.id == server_id then { s with notification_sent := sent } else s) }

/-- Database.reset_server_stats (lines 251-263): zero the counters, clear the
notification flag, and delete the check_history rows of that server. -/
def reset_server_stats (dbs : DBState) (server_id : Nat) : DBState :=
  { servers := dbs.servers.map (fun s =>
      if s.id == server_id then
        { s with total_checks := 0, total_failures := 0,
                 consecutive_failures := 0, notification_sent := false }
      else s),
    history := dbs.history.filter (fun h => !(h.server_id == server_id)) }

/-- Updating every row whose id matches through an id-preserving function
commutes with the id lookup: the found row is the updated one. -/
theorem find?_map_ite (l : List ServerRec) (sid : Nat) (g : ServerRec → ServerRec)
    (hg : ∀ s, (g s).id = s.id) (s : ServerRec)
    (hs : l.find? (fun x => x.id == sid) = some s) :
    (l.map (fun x => if x.id == sid then g x else x)).find?
      (fun x => x.id == sid) = some (g s) := by
  have hpf : (fun x : ServerRec => x.id == sid) ∘
      (fun x => if x.id == sid then g x else x) =
      (fun x : ServerRec => x.id == sid) := by
    funext x
    by_cases h : x.id = sid <;> simp [h, hg]
  rw [List.find?_map, hpf, hs]
  have hps : (s.id == sid) = true :=
    List.find?_some (p := fun x : ServerRec => x.id == sid) hs
  have hid : s.id = sid := by simpa using hps
  simp [hid]

/-- A concrete server row used to instantiate the store theorems: id 1, TCP,
active, two consecutive failures so far, no pending notification. -/
def exServerUp : ServerRec :=
  ⟨1, "vpn", "203.0.113.7", 443, "tcp", true, true, 2, false, 10, 4⟩

/-- A concrete one-server database with empty history. -/
def exDB1 : DBState := ⟨[exServerUp], []⟩

/-- C3: recording a check for an existing endpoint updates exactly that row:
total_checks grows by exactly 1, total_failures grows by exactly 1 iff the
check failed, consecutive_failures becomes 0 on success and its previous
value plus 1 on failure, nonnegativity of consecutive_failures is preserved,
and the successful-checks account total_checks - total_failures grows by 1
exactly on a successful check. -/
theorem update_server_status_counters (dbs : DBState) (sid : Nat)
    (avail : Bool) (rt : Option Nat) (err : Option String) (s : ServerRec)
    (hs : get_server dbs sid = some s) :
    get_server (update_server_status dbs sid avail rt err) sid =
      some (apply_check avail s) ∧
    (apply_check avail s).total_checks = s.total_checks + 1 ∧
    (apply_check avail s).total_failures =
      (if avail then s.total_failures else s.total_failures + 1) ∧
    (apply_check avail s).consecutive_failures =
      (if avail then 0 else s.consecutive_failures + 1) ∧
    (0 ≤ s.consecutive_failures →
      0 ≤ (apply_check avail s).consecutive_failures) ∧
    (apply_check avail s).total_checks - (apply_check avail s).total_failures =
      s.total_checks - s.total_failures + (if avail then 1 else 0) := by
  refine ⟨?_, by simp [apply_check], ?_, ?_, ?_, ?_⟩
  · have hs2 : dbs.servers.find? (fun x => x.id == sid) = some s := hs
    unfold update_server_status
    rw [hs2]
    exact find?_map_ite dbs.servers sid (apply_check avail) (fun x => rfl) s hs2
  · by_cases h : avail <;> simp [apply_check, h]
  · by_cases h : avail <;> simp [apply_check, h]
  · intro h0
    by_cases h : avail <;> simp [apply_check, h]
    all_goals omega
  · by_cases h : avail <;> simp [apply_check, h]
    all_goals omega

/-- Witness for C3 on the concrete one-server store, recording one failed
check of server 1. -/
theorem update_server_status_counters_witness :
    get_server (update_server_status exDB1 1 false none (some "Ping failed")) 1 =
      some (apply_check false exServerUp) ∧
    (apply_check false exServerUp).total_checks = exServerUp.total_checks + 1 ∧
    (apply_check false exServerUp).total_failures =
      (if false then exServerUp.total_failures else exServerUp.total_failures + 1) ∧
    (apply_check false exServerUp).consecutive_failures =
      (if false then 0 else exServerUp.consecutive_failures + 1) ∧
    (0 ≤ exServerUp.consecutive_failures →
      0 ≤ (apply_check false exServerUp).consecutive_failures) ∧
    (apply_check false exServerUp).total_checks -
        (apply_check false exServerUp).total_failures =
      exServerUp.total_checks - exServerUp.total_failures +
        (if false then 1 else 0) :=
  update_server_status_counters exDB1 1 false none (some "Ping failed")
    exServerUp rfl

/-- C10: recording a check under a server id that has no row leaves the
database completely unchanged — no counters move and no history row is
inserted — and the operation returns normally. -/
theorem update_server_status_unknown_id (dbs : DBState) (sid : Nat)
    (avail : Bool) (rt : Option Nat) (err : Option String)
    (h : get_server dbs sid = none) :
    update_server_status dbs sid avail rt err = dbs := by
  have h2 : dbs.servers.find? (fun x => x.id == sid) = none := h
  unfold update_server_status
  rw [h2]

/-- Witness for C10: recording a check for the absent id 2 leaves the
concrete store untouched. -/
theorem update_server_status_unknown_id_witness :
    update_server_status exDB1 2 true (some 5) none = exDB1 :=
  update_server_status_unknown_id exDB1 2 true (some 5) none rfl

/-- One outbound state-change message, as produced by send_down_notification
and send_recovery_notification in bot.py.  The down message carries the probe
error and the displayed failure count (the passed server's
consecutive_failures + 1, bot.py line 1259); the recovery message carries the
probe's response time (line 1269). -/
inductive Notification where
  | down (server_id : Nat) (error : Option String) (failuresShown : Int)
  | recovery (server_id : Nat) (response_time : Option Nat)
deriving Repr, DecidableEq

/-- The confirm_server_down function of bot.py (lines 1232-1246): re-probe
once per list element; return false as soon as one probe is available; return
true when every probe failed.  The list holds the outcomes of the
confirmation probes in order; nothing is written to the database. -/
def confirm_server_down (protocol : String) : List ProbeOutcome → Bool
  | [] => true
  | o :: rest =>
    if (check_server protocol o).is_available then false
    else confirm_server_down protocol rest

/-- The confirm_server_recovery function of bot.py (lines 1215-1229): return
false as soon as one probe fails; true when every probe succeeded. -/
def confirm_server_recovery (protocol : String) : List ProbeOutcome → Bool
  | [] => true
  | o :: rest =>
    if (check_server protocol o).is_available then
      confirm_server_recovery protocol rest
    else false

/-- The database state after the main probe of one loop iteration has been
recorded (bot.py lines 1165-1172): update_server_status applied to the
CheckResult of the iteration's check_server call. -/
def recorded (dbs : DBState) (server : ServerRec) (mo : ProbeOutcome) : DBState :=
  update_server_status dbs server.id
    (check_server server.protocol mo).is_available
    (check_server server.protocol mo).response_time
    (check_server server.protocol mo).error

/-- The body of the per-server iteration of monitoring_loop (bot.py lines
1161-1199): probe, record the result, re-read the server, then run the
recovery branch (on success, when a notification is pending) or the down
branch (on failure, when the threshold is reached and no notification is
pending).  CONFIRM_CHECKS = 2, so the two confirmation probe outcomes are
passed explicitly; none models the exception the Python code raises when the
re-read returns no row. -/
def process_server (failThreshold : Int) (dbs : DBState) (server : ServerRec)
    (mainOutcome confirm1 confirm2 : ProbeOutcome) :
    Option (DBState × List Notification) :=
  let result := check_server server.protocol mainOutcome
  let db1 := recorded dbs server mainOutcome
  match get_server db1 server.id with
  | none => none
  | some updated =>
    if result.is_available then
      if updated.notification_sent then
        if confirm_server_recovery server.protocol [confirm1, confirm2] then
          some (set_notification_sent db1 server.id false,
            [Notification.recovery server.id result.response_time])
        else some (db1, [])
      else some (db1, [])
    else
      if updated.consecutive_failures ≥ failThreshold ∧
          updated.notification_sent = false then
        if confirm_server_down server.protocol [confirm1, confirm2] then
          some (set_notification_sent db1 server.id true,
            [Notification.down server.id result.error
              (updated.consecutive_failures + 1)])
        else some (db1, [])
      else some (db1, [])

/-- The probe outcomes one server can consume in one cycle: the main probe
and the two confirmation probes used if a confirmation sequence runs. -/
structure CycleOutcome where
  main : ProbeOutcome
  confirm1 : ProbeOutcome
  confirm2 : ProbeOutcome
deriving Repr, DecidableEq

/-- The configuration values of config.py, environment-sourced with defaults
CHECK_INTERVAL = 60, FAST_CHECK_INTERVAL = 15 and FAIL_THRESHOLD = 3. -/
structure Config where
  check_interval : Nat
  fast_check_interval : Nat
  fail_threshold : Int
deriving Repr, DecidableEq

/-- The for-loop of one monitoring cycle: process each snapshot server in
order with its cycle outcomes, threading the database; none as soon as one
iteration raises. -/
def run_servers (failThreshold : Int) (dbs : DBState) :
    List (ServerRec × CycleOutcome) → Option (DBState × List Notification)
  | [] => some (dbs, [])
  | (srv, oc) :: rest =>
    match process_server failThreshold dbs srv oc.main oc.confirm1 oc.confirm2 with
    | none => none
    | some (db1, ns) =>
      match run_servers failThreshold db1 rest with
      | none => none
      | some (db2, ns2) => some (db2, ns ++ ns2)

/-- One iteration of the while-loop of monitoring_loop (bot.py lines
1152-1206): snapshot the active servers, compute has_down_servers from that
snapshot, process every server, then sleep FAST_INTERVAL = 15 — a literal in
bot.py line 1149 — when the snapshot had a server at or past the threshold,
and NORMAL_INTERVAL = config.CHECK_INTERVAL otherwise.  Returns the final
database, the notifications of the cycle and the sleep in seconds; the i-th
element of outs supplies the probe outcomes of the i-th snapshot server. -/
def monitoring_cycle (cfg : Config) (dbs : DBState) (outs : List CycleOutcome) :
    Option (DBState × List Notification × Nat) :=
  let servers := get_active_servers dbs
  let has_down_servers := servers.any
    (fun s => decide (s.consecutive_failures ≥ cfg.fail_threshold))
  match run_servers cfg.fail_threshold dbs (servers.zip outs) with
  | none => none
  | some (db1, ns) =>
    some (db1, ns, if has_down_servers then 15 else cfg.check_interval)

/-- Setting the notification flag of a stored server is visible to the id
lookup and changes only that flag. -/
theorem get_server_set_flag (dbs : DBState) (sid : Nat) (b : Bool)
    (s : ServerRec) (hs : get_server dbs sid = some s) :
    get_server (set_notification_sent dbs sid b) sid =
      some { s with notification_sent := b } :=
  find?_map_ite dbs.servers sid (fun x => { x with notification_sent := b })
    (fun _ => rfl) s hs

/-- Probe outcome whose ping exits nonzero: check_server reports
"Ping failed". -/
def probeFail : ProbeOutcome := ⟨.exited 1 7, .connected 1, .reply 1⟩

/-- Probe outcome with successful ping and refused TCP connection:
check_server reports "Connection refused". -/
def probeRefused : ProbeOutcome := ⟨.exited 0 1, .refused, .reply 1⟩

/-- Probe outcome in which ping and TCP connection both succeed. -/
def probeOK : ProbeOutcome := ⟨.exited 0 2, .connected 2, .reply 1⟩

/-- The row of exServerUp after one more recorded failure. -/
def updFail : ServerRec :=
  ⟨1, "vpn", "203.0.113.7", 443, "tcp", true, false, 3, false, 11, 5⟩

/-- A server already past the threshold with its down-alert sent. -/
def exServerAlerted : ServerRec :=
  { exServerUp with consecutive_failures := 3, notification_sent := true }

/-- A one-server database whose server is in the alerted-down state. -/
def exDBDown : DBState := ⟨[exServerAlerted], []⟩

/-- A configuration with a non-default FAST_CHECK_INTERVAL of 30. -/
def cfgEx : Config := ⟨60, 30, 3⟩

/-- C1: on a failed main probe of a scanned endpoint, a down notification is
emitted iff the endpoint's consecutive_failures (after the check is
recorded) reached FAIL_THRESHOLD, notification_sent is false, and both
down-confirmation probes failed; in that case the output is exactly one down
notification and the stored flag becomes true; whenever a confirmation probe
succeeds, no notification is produced and the stored row — flag included —
stays exactly as the recording left it. -/
theorem down_notification_iff (T : Int) (dbs : DBState) (server : ServerRec)
    (mo c1 c2 : ProbeOutcome) (updated : ServerRec)
    (hfail : (check_server server.protocol mo).is_available = false)
    (hupd : get_server (recorded dbs server mo) server.id = some updated) :
    ((∃ st, process_server T dbs server mo c1 c2 =
        some (st, [Notification.down server.id
          (check_server server.protocol mo).error
          (updated.consecutive_failures + 1)])) ↔
      (updated.consecutive_failures ≥ T ∧ updated.notification_sent = false ∧
        (check_server server.protocol c1).is_available = false ∧
        (check_server server.protocol c2).is_available = false)) ∧
    (updated.consecutive_failures ≥ T → updated.notification_sent = false →
      (check_server server.protocol c1).is_available = false →
      (check_server server.protocol c2).is_available = false →
      process_server T dbs server mo c1 c2 =
        some (set_notification_sent (recorded dbs server mo) server.id true,
          [Notification.down server.id (check_server server.protocol mo).error
            (updated.consecutive_failures + 1)]) ∧
      get_server (set_notification_sent (recorded dbs server mo) server.id true)
        server.id = some { updated with notification_sent := true }) ∧
    ((check_server server.protocol c1).is_available = true ∨
      (check_server server.protocol c2).is_available = true →
      process_server T dbs server mo c1 c2 =
        some (recorded dbs server mo, []) ∧
      get_server (recorded dbs server mo) server.id = some updated) := by
  have key : process_server T dbs server mo c1 c2 =
      if updated.consecutive_failures ≥ T ∧ updated.notification_sent = false then
        if (check_server server.protocol c1).is_available = false ∧
            (check_server server.protocol c2).is_available = false then
          some (set_notification_sent (recorded dbs server mo) server.id true,
            [Notification.down server.id (check_server server.protocol mo).error
              (updated.consecutive_failures + 1)])
        else some (recorded dbs server mo, [])
      else some (recorded dbs server mo, []) := by
    simp only [process_server]
    rw [hupd]
    by_cases h1 : (check_server server.protocol c1).is_available = true <;>
      by_cases h2 : (check_server server.protocol c2).is_available = true <;>
      simp_all [confirm_server_down, hfail]
  refine ⟨⟨?_, ?_⟩, ?_, ?_⟩
  · rintro ⟨st, hst⟩
    rw [key] at hst
    by_cases hc : updated.consecutive_failures ≥ T ∧
        updated.notification_sent = false <;>
      by_cases hcc : (check_server server.protocol c1).is_available = false ∧
          (check_server server.protocol c2).is_available = false <;>
      simp_all
  · rintro ⟨hcf, hns, h1, h2⟩
    exact ⟨set_notification_sent (recorded dbs server mo) server.id true,
      by rw [key]; simp [hcf, hns, h1, h2]⟩
  · intro hcf hns h1 h2
    refine ⟨by rw [key]; simp [hcf, hns, h1, h2], ?_⟩
    exact get_server_set_flag _ _ _ _ hupd
  · intro h12
    have hcc : ¬ ((check_server server.protocol c1).is_available = false ∧
        (check_server server.protocol c2).is_available = false) := by
      rcases h12 with h | h <;> simp [h]
    refine ⟨?_, hupd⟩
    rw [key]
    by_cases hc : updated.consecutive_failures ≥ T ∧
        updated.notification_sent = false <;> simp [hc, hcc]

/-- Witness for C1: server 1 at two prior consecutive failures fails its main
probe and both confirmation probes, producing exactly one down
notification. -/
theorem down_notification_iff_witness :
    ((∃ st, process_server 3 exDB1 exServerUp probeFail probeRefused probeRefused =
        some (st, [Notification.down exServerUp.id
          (check_server exServerUp.protocol probeFail).error
          (updFail.consecutive_failures + 1)])) ↔
      (updFail.consecutive_failures ≥ 3 ∧ updFail.notification_sent = false ∧
        (check_server exServerUp.protocol probeRefused).is_available = false ∧
        (check_server exServerUp.protocol probeRefused).is_available = false)) ∧
    (updFail.consecutive_failures ≥ 3 → updFail.notification_sent = false →
      (check_server exServerUp.protocol probeRefused).is_available = false →
      (check_server exServerUp.protocol probeRefused).is_available = false →
      process_server 3 exDB1 exServerUp probeFail probeRefused probeRefused =
        some (set_notification_sent (recorded exDB1 exServerUp probeFail)
            exServerUp.id true,
          [Notification.down exServerUp.id
            (check_server exServerUp.protocol probeFail).error
            (updFail.consecutive_failures + 1)]) ∧
      get_server (set_notification_sent (recorded exDB1 exServerUp probeFail)
          exServerUp.id true) exServerUp.id =
        some { updFail with notification_sent := true }) ∧
    ((check_server exServerUp.protocol probeRefused).is_available = true ∨
      (check_server exServerUp.protocol probeRefused).is_available = true →
      process_server 3 exDB1 exServerUp probeFail probeRefused probeRefused =
        some (recorded exDB1 exServerUp probeFail, []) ∧
      get_server (recorded exDB1 exServerUp probeFail) exServerUp.id =
        some updFail) :=
  down_notification_iff 3 exDB1 exServerUp probeFail probeRefused probeRefused
    updFail (by decide) (by decide)

/-- C2: on a successful main probe of a scanned endpoint, a recovery
notification is emitted iff notification_sent was true in the stored row and
both up-confirmation probes succeeded; in that case the output is exactly one
recovery notification carrying the cycle probe's measured latency and the
stored flag becomes false; whenever a confirmation probe fails, no
notification is produced and the stored row — flag included — stays exactly
as the recording left it. -/
theorem recovery_notification_iff (T : Int) (dbs : DBState) (server : ServerRec)
    (mo c1 c2 : ProbeOutcome) (updated : ServerRec)
    (hok : (check_server server.protocol mo).is_available = true)
    (hupd : get_server (recorded dbs server mo) server.id = some updated) :
    ((∃ st, process_server T dbs server mo c1 c2 =
        some (st, [Notification.recovery server.id
          (check_server server.protocol mo).response_time])) ↔
      (updated.notification_sent = true ∧
        (check_server server.protocol c1).is_available = true ∧
        (check_server server.protocol c2).is_available = true)) ∧
    (updated.notification_sent = true →
      (check_server server.protocol c1).is_available = true →
      (check_server server.protocol c2).is_available = true →
      process_server T dbs server mo c1 c2 =
        some (set_notification_sent (recorded dbs server mo) server.id false,
          [Notification.recovery server.id
            (check_server server.protocol mo).response_time]) ∧
      get_server (set_notification_sent (recorded dbs server mo) server.id false)
        server.id = some { updated with notification_sent := false }) ∧
    ((check_server server.protocol c1).is_available = false ∨
      (check_server server.protocol c2).is_available = false →
      process_server T dbs server mo c1 c2 =
        some (recorded dbs server mo, []) ∧
      get_server (recorded dbs server mo) server.id = some updated) := by
  have key : process_server T dbs server mo c1 c2 =
      if updated.notification_sent = true then
        if (check_server server.protocol c1).is_available = true ∧
            (check_server server.protocol c2).is_available = true then
          some (set_notification_sent (recorded dbs server mo) server.id false,
            [Notification.recovery server.id
              (check_server server.protocol mo).response_time])
        else some (recorded dbs server mo, [])
      else some (recorded dbs server mo, []) := by
    simp only [process_server]
    rw [hupd]
    by_cases h1 : (check_server server.protocol c1).is_available = true <;>
      by_cases h2 : (check_server server.protocol c2).is_available = true <;>
      simp_all [confirm_server_recovery, hok]
  refine ⟨⟨?_, ?_⟩, ?_, ?_⟩
  · rintro ⟨st, hst⟩
    rw [key] at hst
    by_cases hns : updated.notification_sent = true <;>
      by_cases hcc : (check_server server.protocol c1).is_available = true ∧
          (check_server server.protocol c2).is_available = true <;>
      simp_all
  · rintro ⟨hns, h1, h2⟩
    exact ⟨set_notification_sent (recorded dbs server mo) server.id false,
      by rw [key]; simp [hns, h1, h2]⟩
  · intro hns h1 h2
    refine ⟨by rw [key]; simp [hns, h1, h2], ?_⟩
    exact get_server_set_flag _ _ _ _ hupd
  · intro h12
    have hcc : ¬ ((check_server server.protocol c1).is_available = true ∧
        (check_server server.protocol c2).is_available = true) := by
      rcases h12 with h | h <;> simp [h]
    refine ⟨?_, hupd⟩
    rw [key]
    by_cases hns : updated.notification_sent = true <;> simp [hns, hcc]

/-- The row of exServerAlerted after one recorded successful check. -/
def updRecovered : ServerRec :=
  ⟨1, "vpn", "203.0.113.7", 443, "tcp", true, true, 0, true, 11, 4⟩

/-- Witness for C2: the alerted server 1 succeeds on its main probe and on
both confirmation probes, producing exactly one recovery notification. -/
theorem recovery_notification_iff_witness :
    ((∃ st, process_server 3 exDBDown exServerAlerted probeOK probeOK probeOK =
        some (st, [Notification.recovery exServerAlerted.id
          (check_server exServerAlerted.protocol probeOK).response_time])) ↔
      (updRecovered.notification_sent = true ∧
        (check_server exServerAlerted.protocol probeOK).is_available = true ∧
        (check_server exServerAlerted.protocol probeOK).is_available = true)) ∧
    (updRecovered.notification_sent = true →
      (check_server exServerAlerted.protocol probeOK).is_available = true →
      (check_server exServerAlerted.protocol probeOK).is_available = true →
      process_server 3 exDBDown exServerAlerted probeOK probeOK probeOK =
        some (set_notification_sent (recorded exDBDown exServerAlerted probeOK)
            exServerAlerted.id false,
          [Notification.recovery exServerAlerted.id
            (check_server exServerAlerted.protocol probeOK).response_time]) ∧
      get_server (set_notification_sent (recorded exDBDown exServerAlerted probeOK)
          exServerAlerted.id false) exServerAlerted.id =
        some { updRecovered with notification_sent := false }) ∧
    ((check_server exServerAlerted.protocol probeOK).is_available = false ∨
      (check_server exServerAlerted.protocol probeOK).is_available = false →
      process_server 3 exDBDown exServerAlerted probeOK probeOK probeOK =
        some (recorded exDBDown exServerAlerted probeOK, []) ∧
      get_server (recorded exDBDown exServerAlerted probeOK) exServerAlerted.id =
        some updRecovered) :=
  recovery_notification_iff 3 exDBDown exServerAlerted probeOK probeOK probeOK
    updRecovered (by decide) (by decide)

/-- C7 amended: whenever a loop iteration emits a down notification, the
error it carries is the error of the iteration's own (main cycle) probe — the
confirmation probes' results are discarded by confirm_server_down, which
returns only a boolean — and the confirmation did report every probe
failed. -/
theorem down_notification_error_from_cycle_probe (T : Int) (dbs : DBState)
    (server : ServerRec) (mo c1 c2 : ProbeOutcome) (st : DBState)
    (sid : Nat) (e : Option String) (f : Int)
    (h : process_server T dbs server mo c1 c2 =
      some (st, [Notification.down sid e f])) :
    e = (check_server server.protocol mo).error ∧
    confirm_server_down server.protocol [c1, c2] = true := by
  simp only [process_server] at h
  repeat' split at h
  all_goals simp_all

/-- Witness for C7 amended, on the confirmed-down run of server 1. -/
theorem down_notification_error_from_cycle_probe_witness :
    (some "Ping failed" : Option String) =
      (check_server exServerUp.protocol probeFail).error ∧
    confirm_server_down exServerUp.protocol [probeRefused, probeRefused] = true :=
  down_notification_error_from_cycle_probe 3 exDB1 exServerUp probeFail
    probeRefused probeRefused
    (set_notification_sent (recorded exDB1 exServerUp probeFail) 1 true)
    1 (some "Ping failed") 4 (by decide)

/-- C7 counterexample: the main probe of server 1 fails with "Ping failed"
and both confirmation probes fail with "Connection refused"; the emitted down
notification carries "Ping failed", not the last confirmation probe's
error. -/
theorem down_notification_error_counterexample :
    process_server 3 exDB1 exServerUp probeFail probeRefused probeRefused =
      some (set_notification_sent (recorded exDB1 exServerUp probeFail) 1 true,
        [Notification.down 1 (some "Ping failed") 4]) ∧
    (check_server exServerUp.protocol probeRefused).error =
      some "Connection refused" ∧
    ¬ (some "Ping failed" : Option String) = some "Connection refused" :=
  ⟨by decide, by decide, by decide⟩

/-- C9 amended: recording a check of an existing endpoint appends exactly one
history row, leaving all earlier rows in place; a loop iteration — its
confirmation probes included — appends history only through that single
recording, so its final state holds exactly one new row; and the only
deletion is reset_server_stats, which removes exactly that endpoint's
rows. -/
theorem history_append_per_recorded_check (dbs : DBState) (sid : Nat)
    (avail : Bool) (rt : Option Nat) (err : Option String) (s : ServerRec)
    (hs : get_server dbs sid = some s) (T : Int) (server : ServerRec)
    (mo c1 c2 : ProbeOutcome) (st : DBState) (ns : List Notification)
    (hrun : process_server T dbs server mo c1 c2 = some (st, ns)) :
    (update_server_status dbs sid avail rt err).history =
      dbs.history ++ [⟨sid, avail, rt, err⟩] ∧
    st.history = dbs.history ++
      [⟨server.id, (check_server server.protocol mo).is_available,
        (check_server server.protocol mo).response_time,
        (check_server server.protocol mo).error⟩] ∧
    (reset_server_stats dbs sid).history =
      dbs.history.filter (fun h => !(h.server_id == sid)) := by
  refine ⟨?_, ?_, rfl⟩
  · have hs2 : dbs.servers.find? (fun x => x.id == sid) = some s := hs
    unfold update_server_status
    rw [hs2]
  · cases h0 : dbs.servers.find? (fun x => x.id == server.id) with
    | none =>
      have hrec : recorded dbs server mo = dbs := by
        unfold recorded update_server_status
        rw [h0]
      have hget : get_server (recorded dbs server mo) server.id = none := by
        rw [hrec]; exact h0
      simp only [process_server] at hrun
      rw [hget] at hrun
      simp at hrun
    | some s0 =>
      have hhist : (recorded dbs server mo).history = dbs.history ++
          [⟨server.id, (check_server server.protocol mo).is_available,
            (check_server server.protocol mo).response_time,
            (check_server server.protocol mo).error⟩] := by
        unfold recorded update_server_status
        rw [h0]
      simp only [process_server] at hrun
      repeat' split at hrun
      all_goals
        first
          | exact Option.noConfusion hrun
          | (simp only [Option.some.injEq, Prod.mk.injEq] at hrun
             obtain ⟨h1, h2⟩ := hrun
             subst h1
             simp_all [set_notification_sent])

/-- Witness for C9 amended: one recorded success of server 1, one full
confirmed-down iteration, and a stats reset, each touching history exactly as
stated. -/
theorem history_append_per_recorded_check_witness :
    (update_server_status exDB1 1 true (some 5) none).history =
      exDB1.history ++ [⟨1, true, some 5, none⟩] ∧
    (set_notification_sent (recorded exDB1 exServerUp probeFail) 1 true).history =
      exDB1.history ++
        [⟨exServerUp.id, (check_server exServerUp.protocol probeFail).is_available,
          (check_server exServerUp.protocol probeFail).response_time,
          (check_server exServerUp.protocol probeFail).error⟩] ∧
    (reset_server_stats exDB1 1).history =
      exDB1.history.filter (fun h => !(h.server_id == 1)) :=
  history_append_per_recorded_check exDB1 1 true (some 5) none exServerUp rfl 3
    exServerUp probeFail probeRefused probeRefused
    (set_notification_sent (recorded exDB1 exServerUp probeFail) 1 true)
    [Notification.down 1 (some "Ping failed") 4] (by decide)

/-- C9 counterexample: in one loop iteration of server 1 the main probe and
both down-confirmation probes complete (three completed probes), yet the
resulting state holds exactly one new history row — the confirmation probes
of bot.py never call update_server_status. -/
theorem confirmation_probes_append_no_history :
    process_server 3 exDB1 exServerUp probeFail probeRefused probeRefused =
      some (set_notification_sent (recorded exDB1 exServerUp probeFail) 1 true,
        [Notification.down 1 (some "Ping failed") 4]) ∧
    confirm_server_down exServerUp.protocol [probeRefused, probeRefused] = true ∧
    (set_notification_sent (recorded exDB1 exServerUp probeFail) 1
        true).history.length = exDB1.history.length + 1 :=
  ⟨by decide, by decide, by decide⟩

/-- C4 amended: the cycle's sleep is the hard-coded 15 seconds exactly when
the snapshot taken at the start of the cycle — before that cycle's probes —
held an active server at or past FAIL_THRESHOLD, and CHECK_INTERVAL
otherwise; the FAST_CHECK_INTERVAL configuration value is never consulted:
replacing it changes nothing about the cycle. -/
theorem monitoring_cycle_sleep (cfg : Config) (dbs : DBState)
    (outs : List CycleOutcome) (db1 : DBState) (ns : List Notification)
    (slp : Nat)
    (h : monitoring_cycle cfg dbs outs = some (db1, ns, slp)) :
    slp = (if (get_active_servers dbs).any
        (fun s => decide (s.consecutive_failures ≥ cfg.fail_threshold))
      then 15 else cfg.check_interval) ∧
    monitoring_cycle ⟨cfg.check_interval, 0, cfg.fail_threshold⟩ dbs outs =
      monitoring_cycle cfg dbs outs := by
  constructor
  · simp only [monitoring_cycle] at h
    split at h
    · simp at h
    · simp only [Option.some.injEq, Prod.mk.injEq] at h
      exact h.2.2.symm
  · cases cfg
    rfl

/-- The state of the alerted one-server database after the cycle of the C4
witness: the failure is recorded, no notification is emitted. -/
def exDBDownAfter : DBState :=
  ⟨[{ exServerAlerted with
      last_status := false, consecutive_failures := 4,
      total_checks := 11, total_failures := 5 }],
   [⟨1, false, none, some "Ping failed"⟩]⟩

/-- Witness for C4 amended: the alerted snapshot sleeps 15. -/
theorem monitoring_cycle_sleep_witness :
    (15 : Nat) = (if (get_active_servers exDBDown).any
        (fun s => decide (s.consecutive_failures ≥ cfgEx.fail_threshold))
      then 15 else cfgEx.check_interval) ∧
    monitoring_cycle ⟨cfgEx.check_interval, 0, cfgEx.fail_threshold⟩ exDBDown
        [⟨probeFail, probeOK, probeOK⟩] =
      monitoring_cycle cfgEx exDBDown [⟨probeFail, probeOK, probeOK⟩] :=
  monitoring_cycle_sleep cfgEx exDBDown [⟨probeFail, probeOK, probeOK⟩]
    exDBDownAfter [] 15 (by decide)

/-- C4 counterexample, in two runs under FAST_CHECK_INTERVAL = 30: a server
that crosses the threshold during the cycle is followed by the normal
60-second sleep, although after the cycle its consecutive_failures is at the
threshold; and a cycle whose snapshot is already failing sleeps the literal
15, not the configured 30. -/
theorem adaptive_sleep_counterexample :
    (monitoring_cycle cfgEx exDB1 [⟨probeFail, probeOK, probeOK⟩]).map
        (fun r => r.2.2) = some 60 ∧
    (monitoring_cycle cfgEx exDB1 [⟨probeFail, probeOK, probeOK⟩]).map
        (fun r => (get_server r.1 1).map
          (fun s => decide (s.consecutive_failures ≥ cfgEx.fail_threshold))) =
      some (some true) ∧
    (monitoring_cycle cfgEx exDBDown [⟨probeFail, probeOK, probeOK⟩]).map
        (fun r => r.2.2) = some 15 ∧
    cfgEx.fast_check_interval = 30 ∧ cfgEx.check_interval = 60 :=
  ⟨by decide, by decide, by decide, by decide, by decide⟩

end Botmonik

